import Mathlib

/-!
Verification of the MODERATE rule-inference and rule-evaluation engine
(vendored NiFi processors `RuleBuilderProcessor.py` and `DQAValidator.py`).

JSON/YAML values are embedded as the inductive type `Val`; Python's dynamic
scalars map onto `Val.null / Val.bool / Val.int / Val.float / Val.str`, with
Python floats idealised as exact rationals.  Pure Python functions become Lean
functions; randomness (`random.randint`, `random.sample`) is supplied by an
explicit integer oracle; the `re` regex engine is an oracle parameter of the
regex check.  The modelling notes on each definition record the points where
the embedding restricts Python behaviour (e.g. ASCII case folding, decimal
integer literals without underscore grouping), none of which is exercised by
the theorems below.
-/

/-- A JSON/YAML value, as handled by both processors. Python floats are
modelled as exact rationals. -/
inductive Val where
  | null : Val
  | bool : Bool → Val
  | int : Int → Val
  | float : Rat → Val
  | str : String → Val
  | arr : List Val → Val
  | obj : List (String × Val) → Val
deriving Repr

mutual

/-- Structural equality on `Val` (used for list membership of scalars). -/
def Val.beq : Val → Val → Bool
  | .null, .null => true
  | .bool a, .bool b => a == b
  | .int a, .int b => a == b
  | .float a, .float b => a == b
  | .str a, .str b => a == b
  | .arr a, .arr b => Val.beqList a b
  | .obj a, .obj b => Val.beqObj a b
  | _, _ => false

/-- Elementwise `Val.beq` on lists. -/
def Val.beqList : List Val → List Val → Bool
  | [], [] => true
  | a :: as0, b :: bs0 => Val.beq a b && Val.beqList as0 bs0
  | _, _ => false

/-- Pairwise `Val.beq` on key/value lists. -/
def Val.beqObj : List (String × Val) → List (String × Val) → Bool
  | [], [] => true
  | (k1, v1) :: as0, (k2, v2) :: bs0 => k1 == k2 && Val.beq v1 v2 && Val.beqObj as0 bs0
  | _, _ => false

end

instance : BEq Val := ⟨Val.beq⟩

/-- Numeric view of a value: Python treats `bool` as an `int` (`True == 1`)
and compares `int` and `float` numerically. -/
def toNum : Val → Option Rat
  | .bool b => some (if b then 1 else 0)
  | .int n => some (n : Rat)
  | .float q => some q
  | _ => none

/-- Python `==` between values: numeric kinds compare by value (so
`True == 1` and `1 == 1.0`), everything else structurally.  Cross-kind
numeric equality inside containers is not modelled (no claim evaluates it). -/
def pyEq (a b : Val) : Bool :=
  match toNum a, toNum b with
  | some x, some y => x == y
  | _, _ => Val.beq a b

/-- Python `<=` between values: numeric kinds compare by value, strings
lexicographically; anything else raises `TypeError`, modelled as `none`.
(Python also orders lists elementwise; no claim evaluates that case.) -/
def pyLE (a b : Val) : Option Bool :=
  match toNum a, toNum b with
  | some x, some y => some (decide (x ≤ y))
  | _, _ =>
    match a, b with
    | .str s1, .str s2 => some (decide (s1 ≤ s2))
    | _, _ => none

/-- ASCII lower-casing of one character, as Python's `str.lower` acts on
ASCII input (non-ASCII case folding is not modelled). -/
def pyLower (c : Char) : Char :=
  if 65 ≤ c.toNat ∧ c.toNat ≤ 90 then Char.ofNat (c.toNat + 32) else c

/-- Python `str.lower` (ASCII). -/
def pyLowerStr (s : String) : String := String.mk (s.data.map pyLower)

/-- The whitespace characters stripped by Python's `str.strip`, `int()` and
`float()` (the ASCII ones; exotic Unicode spaces are not modelled). -/
def pySpace (c : Char) : Bool :=
  c.toNat == 32 || c.toNat == 9 || c.toNat == 10 || c.toNat == 13 ||
    c.toNat == 11 || c.toNat == 12

/-- The decimal digits `'0'..'9'` (Python's `str.isdigit` also accepts some
Unicode digits, which are not modelled). -/
def pyIsDigit (c : Char) : Bool := 48 ≤ c.toNat && c.toNat ≤ 57

/-- Value of a list of decimal digits. -/
def digitsToNat (l : List Char) : Nat :=
  l.foldl (fun acc c => acc * 10 + (c.toNat - 48)) 0

/-- Python `int(string)` on a character list: optional surrounding
whitespace, optional sign, then at least one decimal digit. Underscore
grouping between digits is not modelled. -/
def pyParseIntList (l : List Char) : Option Int :=
  let l1 := l.dropWhile pySpace
  let sgn : Bool × List Char :=
    if l1.headD ' ' == '+' then (false, l1.tail)
    else if l1.headD ' ' == '-' then (true, l1.tail)
    else (false, l1)
  let ds := sgn.2.takeWhile pyIsDigit
  let rest := sgn.2.dropWhile pyIsDigit
  if ds.isEmpty || !(rest.all pySpace) then none
  else some (if sgn.1 then -(digitsToNat ds : Int) else (digitsToNat ds : Int))

/-- Python `int(string)`. -/
def pyParseInt (s : String) : Option Int := pyParseIntList s.data

/-- Python `float(string)` on a character list: optional surrounding
whitespace, optional sign, decimal digits with optional fractional part and
optional exponent. The special values `inf`/`nan` are not modelled. -/
def pyParseFloatList (l : List Char) : Option Rat :=
  let l1 := l.dropWhile pySpace
  let sgn : Bool × List Char :=
    if l1.headD ' ' == '+' then (false, l1.tail)
    else if l1.headD ' ' == '-' then (true, l1.tail)
    else (false, l1)
  let ip := sgn.2.takeWhile pyIsDigit
  let r1 := sgn.2.dropWhile pyIsDigit
  let fr : List Char × List Char :=
    if r1.headD ' ' == '.' then (r1.tail.takeWhile pyIsDigit, r1.tail.dropWhile pyIsDigit)
    else ([], r1)
  if ip.isEmpty && fr.1.isEmpty then none
  else
    let mantissa : Rat :=
      (digitsToNat ip : Rat) + (digitsToNat fr.1 : Rat) / ((10 : Rat) ^ fr.1.length)
    let signed := if sgn.1 then -mantissa else mantissa
    if fr.2.headD ' ' == 'e' || fr.2.headD ' ' == 'E' then
      let esgn : Bool × List Char :=
        if fr.2.tail.headD ' ' == '+' then (false, fr.2.tail.tail)
        else if fr.2.tail.headD ' ' == '-' then (true, fr.2.tail.tail)
        else (false, fr.2.tail)
      let ed := esgn.2.takeWhile pyIsDigit
      let r3 := esgn.2.dropWhile pyIsDigit
      if ed.isEmpty || !(r3.all pySpace) then none
      else
        some (signed *
          (10 : Rat) ^ (if esgn.1 then -(digitsToNat ed : Int) else (digitsToNat ed : Int)))
    else if fr.2.all pySpace then some signed else none

/-- Python `float(string)`. -/
def pyParseFloat (s : String) : Option Rat := pyParseFloatList s.data

/-- Python `str.strip()` (ASCII whitespace). -/
def pyStrip (s : String) : String :=
  String.mk (((s.data.dropWhile pySpace).reverse.dropWhile pySpace).reverse)

/-- Python `str(value)` for the scalars the claims evaluate: `str(None)` is
`"None"`, booleans render as `"True"`/`"False"`, integers in decimal.  The
renderings of floats and of containers are abstracted (no claim evaluates
them). -/
def pyStr (v : Val) : String :=
  match v with
  | .null => "None"
  | .bool b => if b then "True" else "False"
  | .int n => toString n
  | .float q => toString q
  | .str s => s
  | .arr _ => "[unmodelled]"
  | .obj _ => "\x7bunmodelled\x7d"

/-- Python `needle in hay` on strings: substring containment. -/
def strContains (hay needle : String) : Bool :=
  (List.range (hay.data.length + 1)).any (fun i => needle.data.isPrefixOf (hay.data.drop i))

/-- Python `key in value`: key membership for dicts, substring for strings,
element equality for lists; any other right operand raises `TypeError`,
modelled as `none`. -/
def pyIn (key : String) (v : Val) : Option Bool :=
  match v with
  | .obj kvs => some (kvs.any (fun kv => kv.1 == key))
  | .str s => some (strContains s key)
  | .arr xs => some (xs.any (fun x => pyEq x (.str key)))
  | _ => none

/-! ### Path Resolver (`StandardValidator._get_values`) -/

mutual

/-- `extract_values` inside `_get_values`: depth-first flattening of every
leaf scalar, discarding keys, duplicates retained. -/
def extractValues : Val → List Val
  | .obj kvs => extractValuesObj kvs
  | .arr xs => extractValuesArr xs
  | v => [v]

/-- `extract_values` over the entries of a mapping. -/
def extractValuesObj : List (String × Val) → List Val
  | [] => []
  | (_, v) :: rest => extractValues v ++ extractValuesObj rest

/-- `extract_values` over the items of a sequence. -/
def extractValuesArr : List Val → List Val
  | [] => []
  | v :: rest => extractValues v ++ extractValuesArr rest

end

/-- First binding of a key in a key/value list (Python dict lookup; parsed
JSON objects have no duplicate keys). -/
def assocFind (k : String) : List (String × Val) → Option Val
  | [] => none
  | (k2, v) :: rest => if k2 == k then some v else assocFind k rest

/-- `jmespath.search` restricted to dot-separated identifier paths — the only
path shape the rule builder generates.  A missing field, or a traversal into
a non-mapping, yields `none`; note that jmespath also returns Python `None`
for a *found* JSON null, so `none` and `some .null` are indistinguishable to
the caller (both become `[Val.null]` in `getValues`). -/
def jmesSearch : Val → List String → Option Val
  | v, [] => some v
  | .obj kvs, k :: rest =>
    match assocFind k kvs with
    | some v2 => jmesSearch v2 rest
    | none => none
  | _, _ :: _ => none

/-- Split a character list at every `'.'` (the grouping of
`String.splitOn "."`: the empty input gives one empty group, a trailing dot
an empty last group). -/
def splitOnDots : List Char → List (List Char)
  | [] => [[]]
  | c :: rest =>
    if c == '.' then [] :: splitOnDots rest
    else
      match splitOnDots rest with
      | [] => [[c]]
      | g :: gs => (c :: g) :: gs

/-- The dot-separated segments of a feature path. -/
def splitPath (s : String) : List String := (splitOnDots s.data).map String.mk

/-- `StandardValidator._get_values`: `'*'` flattens every leaf value;
otherwise the jmespath result is returned as-is when it is a list and wrapped
in a one-element list otherwise.  A lookup that finds nothing therefore
yields `[Val.null]` — the Python `None`, the very same value as a present
JSON null. -/
def getValues (sample : Val) (path : String) : List Val :=
  if path = "*" then extractValues sample
  else
    match jmesSearch sample (splitPath path) with
    | some (.arr xs) => xs
    | some v => [v]
    | none => [Val.null]

/-- `split_on_last_dot` inside `StandardValidator.exists`: split at the last
`'.'`; with no dot the whole string is the first component and the second is
empty. -/
def splitOnLastDot (s : String) : String × String :=
  if s.data.contains '.' then
    (String.mk (((s.data.reverse.dropWhile (fun c => c != '.')).drop 1).reverse),
     String.mk ((s.data.reverse.takeWhile (fun c => c != '.')).reverse))
  else (s, "")

/-! ### Rule Evaluator (`StandardValidator`) -/

/-- One entry of the `validations` list of a report. -/
structure CheckResult where
  type : String
  feature : String
  checks : List Bool
  result : Bool
  description : String
deriving Repr, DecidableEq

/-- `StandardValidator.check_strlen`: stringify each resolved value and
compare its length with `len` according to `lenType`; an unrecognised
`lenType` appends no check at all. -/
def checkStrlen (sample : Val) (path : String) (lenType : String) (len : Int) : CheckResult :=
  let values := getValues sample path
  let checks := values.filterMap (fun v =>
    let n : Int := ((pyStr v).length : Int)
    if lenType = "EXACT" then some (decide (n = len))
    else if lenType = "LOWER" then some (decide (n < len))
    else if lenType = "UPPER" then some (decide (len < n))
    else none)
  { type := "strlen", feature := path, checks := checks,
    result := checks.all id, description := "" }

/-- The loop body of `StandardValidator.check_datatype` for one value;
`none` for an unrecognised type label (which appends no check).  Python's
`bool` is a subclass of `int`, so native booleans satisfy the
`isinstance(value, int)` and `isinstance(value, (int, float))` tests. -/
def datatypeValueCheck (dataType : String) (coerce : Bool) (v : Val) : Option Bool :=
  if dataType = "STRING" then
    some (match v with | .str _ => true | _ => false)
  else if dataType = "INTEGER" then
    some (match v with
      | .bool _ => true
      | .int _ => true
      | .str s => coerce && (pyParseInt s).isSome
      | _ => false)
  else if dataType = "FLOAT" then
    some (match v with
      | .bool _ => true
      | .int _ => true
      | .float _ => true
      | .str s => coerce && (pyParseFloat s).isSome
      | _ => false)
  else if dataType = "BOOLEAN" then
    some (match v with | .bool _ => true | _ => false)
  else none

/-- `StandardValidator.check_datatype`. -/
def checkDatatype (sample : Val) (path : String) (dataType : String) (coerce : Bool) :
    CheckResult :=
  let checks := (getValues sample path).filterMap (datatypeValueCheck dataType coerce)
  { type := "datatype", feature := path, checks := checks,
    result := checks.all id, description := "" }

/-- The coercion applied by `check_domain` to string values when
`coerce_numeric_strings` is set: `float(value)` when the string contains a
`'.'` or an `'e'`/`'E'`, else `int(value)`; `none` on parse failure. -/
def coerceNumStr (s : String) : Option Val :=
  if s.data.contains '.' || (pyLowerStr s).data.contains 'e' then
    (pyParseFloat s).map Val.float
  else
    (pyParseInt s).map Val.int

/-- The loop body of `StandardValidator.check_domain` for one value:
`.error ()` models an uncaught `TypeError` from an order comparison,
`.ok none` the branch that appends no check (both bounds absent),
`.ok (some b)` an appended check.  A `None` value fails immediately; a
failed coercion fails immediately. -/
def domainValueStep (minv maxv : Option Val) (coerce : Bool) (v : Val) :
    Except Unit (Option Bool) :=
  match v with
  | .null => .ok (some false)
  | v0 =>
    let v1opt : Option Val :=
      if coerce then
        match v0 with
        | .str s => coerceNumStr s
        | x => some x
      else some v0
    match v1opt with
    | none => .ok (some false)
    | some v1 =>
      match minv, maxv with
      | some mv, some Mv =>
        match pyLE mv v1 with
        | none => .error ()
        | some false => .ok (some false)
        | some true =>
          match pyLE v1 Mv with
          | none => .error ()
          | some b => .ok (some b)
      | some mv, none =>
        match pyLE mv v1 with
        | none => .error ()
        | some b => .ok (some b)
      | none, some Mv =>
        match pyLE v1 Mv with
        | none => .error ()
        | some b => .ok (some b)
      | none, none => .ok none

/-- The check list accumulated by `check_domain`; `none` models an uncaught
`TypeError` aborting the whole validation. -/
def domainChecks (minv maxv : Option Val) (coerce : Bool) : List Val → Option (List Bool)
  | [] => some []
  | v :: rest =>
    match domainValueStep minv maxv coerce v with
    | .error _ => none
    | .ok none => domainChecks minv maxv coerce rest
    | .ok (some b) => (domainChecks minv maxv coerce rest).map (b :: ·)

/-- `StandardValidator.check_domain`; `none` models an uncaught `TypeError`
(incomparable value), which in Python aborts the validation. -/
def checkDomain (sample : Val) (path : String) (minv maxv : Option Val) (coerce : Bool) :
    Option CheckResult :=
  (domainChecks minv maxv coerce (getValues sample path)).map (fun checks =>
    { type := "domain", feature := path, checks := checks,
      result := checks.all id, description := "" })

/-- `StandardValidator.check_categorical`: membership (Python `in`, i.e.
`==` against each allowed value). -/
def checkCategorical (sample : Val) (path : String) (allowed : List Val) : CheckResult :=
  let checks := (getValues sample path).map (fun v => allowed.any (fun a => pyEq v a))
  { type := "categorical", feature := path, checks := checks,
    result := checks.all id, description := "" }

/-- `StandardValidator.exists`: split the feature path at its last dot into
container path and key, resolve the container path, and test `key in value`
on each resolved container; a `TypeError` is caught and recorded as a failing
check when `exists=true` (passing when `exists=false`).  The reported
`type` is the literal string `"missing"` and the reported feature re-joins
container and key with a dot. -/
def existsCheck (sample : Val) (featPath : String) (shouldExist : Bool) : CheckResult :=
  let parts := splitOnLastDot featPath
  let values := getValues sample parts.1
  let checks := values.map (fun v =>
    match pyIn parts.2 v with
    | some b => if shouldExist then b else !b
    | none => if shouldExist then false else true)
  { type := "missing", feature := parts.1 ++ "." ++ parts.2, checks := checks,
    result := checks.all id, description := "" }

/-- `StandardValidator.check_regex`: full-string match of each stringified
value against the pattern; the `re` engine is the oracle `rmatch`. -/
def checkRegex (rmatch : String → String → Bool) (sample : Val) (path : String)
    (pattern : String) : CheckResult :=
  let checks := (getValues sample path).map (fun v => rmatch pattern (pyStr v))
  { type := "regex", feature := path, checks := checks,
    result := checks.all id, description := "" }

/-- The kind-specific `specs` mapping of a rule, as a tagged union (the YAML
dict with the keys each check function reads). -/
inductive Specs where
  | domain : Option Val → Option Val → Bool → Specs
  | strlen : String → Int → Specs
  | datatype : String → Bool → Specs
  | categorical : List Val → Specs
  | existsSpec : Bool → Specs
  | regex : String → Specs
deriving Repr

/-- A parsed rule as the validator reads it: the dict keys `name`,
`feature` and `specs`. -/
structure Rule where
  name : String
  feature : String
  specs : Specs
deriving Repr

/-- The dispatch of `StandardValidator.validate` on `rule["name"]`: an
unrecognised name appends no validation (silently skipped).  `none` also
covers a specs dict whose shape does not match the rule name and a domain
`TypeError` — both uncaught exceptions in Python, unexercised by claims. -/
def evalRule (rmatch : String → String → Bool) (sample : Val) (r : Rule) :
    Option CheckResult :=
  if r.name = "domain" then
    match r.specs with
    | .domain mn mx c => checkDomain sample r.feature mn mx c
    | _ => none
  else if r.name = "strlen" then
    match r.specs with
    | .strlen lt ln => some (checkStrlen sample r.feature lt ln)
    | _ => none
  else if r.name = "datatype" then
    match r.specs with
    | .datatype t c => some (checkDatatype sample r.feature t c)
    | _ => none
  else if r.name = "categorical" then
    match r.specs with
    | .categorical vs => some (checkCategorical sample r.feature vs)
    | _ => none
  else if r.name = "exists" then
    match r.specs with
    | .existsSpec e => some (existsCheck sample r.feature e)
    | _ => none
  else if r.name = "regex" then
    match r.specs with
    | .regex p => some (checkRegex rmatch sample r.feature p)
    | _ => none
  else none

/-- The `validations` list built by `StandardValidator.validate`. -/
def validateList (rmatch : String → String → Bool) (sample : Val) (rules : List Rule) :
    List CheckResult :=
  rules.filterMap (evalRule rmatch sample)

/-- The report returned by `StandardValidator.validate` (`ts` is the
timestamp, passed in since `time.time_ns` is ambient). -/
structure ValidationReport where
  validatorID : String
  sample : Val
  validations : List CheckResult
  ts : Nat
deriving Repr

/-- `StandardValidator.validate`. -/
def validate (rmatch : String → String → Bool) (validatorID : String) (rules : List Rule)
    (sample : Val) (ts : Nat) : ValidationReport :=
  { validatorID := validatorID, sample := sample,
    validations := validateList rmatch sample rules, ts := ts }

/-! ### Rule Builder (`RuleBuilderProcessor`) -/

/-- The processor configuration knobs read by stats collection and rule
synthesis. -/
structure Config where
  max_categories : Nat
  regex_derivation : Bool
  permissive_numeric_checks : Bool
deriving Repr

/-- The default property values of the processor
(`DEFAULT_MAX_CATEGORIES = 20`, regex derivation off, permissive numeric
checks on). -/
def cfgDefault : Config :=
  { max_categories := 20, regex_derivation := false, permissive_numeric_checks := true }

/-- The per-field accumulator of `_collect_stats`.  `type_counts` is the
`Counter` as an insertion-ordered association list; `categories` is the
bounded set in insertion order (Python's set iteration order is
hash-dependent and unspecified — no claim observes it). -/
structure FieldStats where
  count : Nat
  missing : Nat
  type_counts : List (String × Nat)
  categories : List Val
  numeric_min : Option Rat
  numeric_max : Option Rat
  numeric_count : Nat
  samples : List Val
deriving Repr

/-- The fresh accumulator created by the `defaultdict`. -/
def emptyFieldStats : FieldStats :=
  { count := 0, missing := 0, type_counts := [], categories := [],
    numeric_min := none, numeric_max := none, numeric_count := 0, samples := [] }

/-- The three adaptive thresholds returned by `_derive_thresholds`. -/
structure Thresholds where
  min_categorical_unique : Nat
  min_regex_samples : Nat
  min_domain_samples : Nat
deriving Repr

/-- The `clamp` helper inside `_derive_thresholds`. -/
def clampNat (value lower upper : Nat) : Nat := max lower (min upper value)

/-- `RuleBuilderProcessor._derive_thresholds`: each threshold is
`clamp(ceil(sampled_count * fraction), floor, ceiling)` with the constant
fractions `CATEGORICAL_FRACTION = REGEX_FRACTION = 0.20`,
`DOMAIN_FRACTION = 0.40` and bounds 5/100, 5/100, 30/500.  The ceiling of
`n * 1/5` (resp. `n * 2/5`) is computed exactly as `(n+4)/5` (resp.
`(2n+4)/5`) in natural division. -/
def deriveThresholds (sampledCount : Nat) : Thresholds :=
  { min_categorical_unique := clampNat ((sampledCount + 4) / 5) 5 100
    min_regex_samples := clampNat ((sampledCount + 4) / 5) 5 100
    min_domain_samples := clampNat ((2 * sampledCount + 4) / 5) 30 500 }

/-- `RuleBuilderProcessor._infer_type`: the ordered coercion chain — native
bool, native int, native float, case-insensitive `"true"`/`"false"` string,
integer-parseable string, float-parseable string, otherwise `"string"`
(containers also fall through to `"string"`). -/
def inferType (v : Val) : String :=
  match v with
  | .bool _ => "bool"
  | .int _ => "int"
  | .float _ => "float"
  | .str s =>
    if pyLowerStr s = "true" ∨ pyLowerStr s = "false" then "bool"
    else if (pyParseInt s).isSome then "int"
    else if (pyParseFloat s).isSome then "float"
    else "string"
  | _ => "string"

/-- `Counter` increment preserving first-insertion order. -/
def counterAdd (tc : List (String × Nat)) (k : String) : List (String × Nat) :=
  if tc.any (fun kv => kv.1 == k) then
    tc.map (fun kv => if kv.1 == k then (kv.1, kv.2 + 1) else kv)
  else tc ++ [(k, 1)]

/-- `Counter.most_common(1)`: the key with the greatest count, ties broken
by first-insertion order (Python's stable reverse sort). -/
def mostCommonKey : List (String × Nat) → Option String
  | [] => none
  | (k, c) :: rest =>
    some (rest.foldl (fun best kv => if kv.2 > best.2 then kv else best) (k, c)).1

/-- `RuleBuilderProcessor._choose_type`: map the most frequent inferred type
to a DQA type label; an empty counter gives STRING. -/
def chooseType (tc : List (String × Nat)) : String :=
  match mostCommonKey tc with
  | none => "STRING"
  | some p =>
    if p = "bool" then "BOOLEAN"
    else if p = "int" then "INTEGER"
    else if p = "float" then "FLOAT"
    else "STRING"

/-- `RuleBuilderProcessor._looks_iso_date`: the string is at least 10
characters long and its first 10 characters match the shape
`DDDD-DD-DD`. -/
def looksIsoDate (s : String) : Bool :=
  let l := s.data
  if l.length < 10 then false
  else
    let p := l.take 10
    p.getD 4 ' ' == '-' && p.getD 7 ' ' == '-' &&
      (p.take 4).all pyIsDigit && ((p.drop 5).take 2).all pyIsDigit &&
      ((p.drop 8).take 2).all pyIsDigit

/-- `RuleBuilderProcessor._looks_datetime_field`: the lower-cased field name
contains `"time"` or `"date"`, or ANY stringified sample looks like an ISO
date. -/
def looksDatetimeField (field : String) (samples : List Val) : Bool :=
  strContains (pyLowerStr field) "time" || strContains (pyLowerStr field) "date" ||
    samples.any (fun v => looksIsoDate (pyStr v))

/-- `isinstance(s, (str, int, float, bool))` — the sample filter of
`_derive_regex`. -/
def valIsScalarStr (v : Val) : Bool :=
  match v with
  | .str _ => true
  | .int _ => true
  | .float _ => true
  | .bool _ => true
  | _ => false

/-- Python `s.isdigit()`: nonempty and all decimal digits. -/
def pyIsDigitStr (s : String) : Bool := !s.data.isEmpty && s.data.all pyIsDigit

/-- `RuleBuilderProcessor._derive_regex`: equal-length all-digit samples
give `^\d{n}$`; otherwise all-ISO-date samples give the date-prefix
pattern; otherwise nothing. -/
def deriveRegex (samples : List Val) : Option String :=
  let ss := (samples.filter valIsScalarStr).map pyStr
  if ss.isEmpty then none
  else if (ss.map String.length).dedup.length == 1 && ss.all pyIsDigitStr then
    some ("^\\d\x7b" ++ toString (ss.headD "").length ++ "\x7d$")
  else if ss.all looksIsoDate then
    some "^\\d\x7b4\x7d-\\d\x7b2\x7d-\\d\x7b2\x7d"
  else none

/-- Python `int(float)`: truncation toward zero. -/
def pyTruncRat (q : Rat) : Int := if q < 0 then -(Int.floor (-q)) else Int.floor q

/-- `RuleBuilderProcessor._relax_range`: with permissive checks off the
observed bounds are returned unchanged (as floats); otherwise they are
widened by `max(3, 0.3*|span|)` and, for INTEGER, truncated back to
integers. -/
def relaxRange (cfg : Config) (minVal maxVal : Rat) (dqaType : String) : Val × Val :=
  if !cfg.permissive_numeric_checks then (.float minVal, .float maxVal)
  else
    let span := maxVal - minVal
    let buffer := max (3 : Rat) (|span| * (3 / 10))
    let relaxedMin := minVal - buffer
    let relaxedMax := maxVal + buffer
    if dqaType = "INTEGER" then (.int (pyTruncRat relaxedMin), .int (pyTruncRat relaxedMax))
    else (.float relaxedMin, .float relaxedMax)

/-- The `exists` rule dict appended by `_build_rules_yaml`:
`{name: "exists", feature, specs: {exists: missing == 0}}`. -/
def existsRuleVal (field : String) (s : FieldStats) : Val :=
  .obj [("name", .str "exists"), ("feature", .str field),
        ("specs", .obj [("exists", .bool (s.missing == 0))])]

/-- The `datatype` rule dict appended by `_build_rules_yaml`; in permissive
mode a numeric type gets `coerce_numeric_strings: true`. -/
def datatypeRuleVal (cfg : Config) (field : String) (dqaType : String) : Val :=
  .obj [("name", .str "datatype"), ("feature", .str field),
        ("specs", .obj ([("type", .str dqaType)] ++
          (if cfg.permissive_numeric_checks && (dqaType == "INTEGER" || dqaType == "FLOAT")
           then [("coerce_numeric_strings", .bool true)] else [])))]

/-- The `domain` rule segment of `_build_rules_yaml`: emitted only for a
numeric chosen type with both observed bounds present and enough numeric
evidence. -/
def domainRules (cfg : Config) (th : Thresholds) (field : String) (dqaType : String)
    (s : FieldStats) : List Val :=
  match s.numeric_min, s.numeric_max with
  | some mn, some mx =>
    if (dqaType == "INTEGER" || dqaType == "FLOAT") &&
        decide (th.min_domain_samples ≤ s.numeric_count) then
      let relaxed := relaxRange cfg mn mx dqaType
      [.obj [("name", .str "domain"), ("feature", .str field),
             ("specs", .obj ([("min", relaxed.1), ("max", relaxed.2)] ++
               (if cfg.permissive_numeric_checks
                then [("coerce_numeric_strings", .bool true)] else [])))]]
    else []
  | _, _ => []

/-- The `categorical` rule segment of `_build_rules_yaml`: emitted when the
category set is nonempty, within `max_categories`, at least
`min_categorical_unique` large, and the field does not look datetime-like. -/
def categoricalRules (cfg : Config) (th : Thresholds) (field : String) (s : FieldStats) :
    List Val :=
  if !s.categories.isEmpty && decide (s.categories.length ≤ cfg.max_categories) &&
      decide (th.min_categorical_unique ≤ s.categories.length) &&
      !looksDatetimeField field s.samples then
    [.obj [("name", .str "categorical"), ("feature", .str field),
           ("specs", .obj [("values", .arr s.categories)])]]
  else []

/-- The `regex` rule segment of `_build_rules_yaml`. -/
def regexRules (cfg : Config) (th : Thresholds) (field : String) (s : FieldStats) :
    List Val :=
  if cfg.regex_derivation && decide (th.min_regex_samples ≤ s.samples.length) then
    match deriveRegex s.samples with
    | some p =>
      [.obj [("name", .str "regex"), ("feature", .str field),
             ("specs", .obj [("regex", .str p)])]]
    | none => []
  else []

/-- The rules appended by one iteration of the field loop of
`_build_rules_yaml`; a field with no observations is skipped. -/
def fieldRules (cfg : Config) (th : Thresholds) (field : String) (s : FieldStats) :
    List Val :=
  if s.count + s.missing == 0 then []
  else
    [existsRuleVal field s, datatypeRuleVal cfg field (chooseType s.type_counts)] ++
      domainRules cfg th field (chooseType s.type_counts) s ++
      categoricalRules cfg th field s ++
      regexRules cfg th field s

/-- The full `rules` list of `_build_rules_yaml`, in field-insertion order. -/
def buildRulesList (cfg : Config) (stats : List (String × FieldStats)) (th : Thresholds) :
    List Val :=
  stats.flatMap (fun fs => fieldRules cfg th fs.1 fs.2)

/-- The mapping serialised by `_build_rules_yaml`
(`yaml.safe_dump({"rules": rules})`, with the text encoding abstracted). -/
def buildRules (cfg : Config) (stats : List (String × FieldStats)) (th : Thresholds) : Val :=
  .obj [("rules", .arr (buildRulesList cfg stats th))]

/-- `_compute_sample_target`: `clamp(ceil(total * percent/100), min, max)`
with fallback when the clamped target is not positive (the float ceiling is
computed exactly as `(total*percent + 99)/100`). -/
def computeSampleTarget (totalRecords samplePercent minSize maxSize fallbackSize : Nat) :
    Nat :=
  let target := (totalRecords * samplePercent + 99) / 100
  let target := max minSize target
  let target := min maxSize target
  if target == 0 then fallbackSize else target

/-- `CsvHandler.parse_records`: reservoir sampling over the rows produced by
`csv.DictReader` (the CSV text decoding is abstracted — the input here is
the row stream).  `rand i` supplies `random.randint(1, i)` as
`rand i % i + 1`. -/
def csvSample (rand : Nat → Nat) (samplePercent minSize maxSize fallbackSize : Nat)
    (rows : List Val) : List Val :=
  (rows.foldl (fun acc row =>
      let idx := acc.1 + 1
      let reservoir := acc.2
      let target := computeSampleTarget idx samplePercent minSize maxSize fallbackSize
      if reservoir.length < target then (idx, reservoir ++ [row])
      else
        let j := rand idx % idx + 1
        (idx, if j ≤ target then reservoir.set (j - 1) row else reservoir))
    (0, ([] : List Val))).2

/-- `random.sample(data, k)` driven by an index oracle: repeatedly remove
the element at `pick i % remaining` (uniform choice abstracted). -/
def sampleWR (pick : Nat → Nat) : Nat → List Val → List Val
  | 0, _ => []
  | _ + 1, [] => []
  | k + 1, x :: xs =>
    let i := pick k % (x :: xs).length
    ((x :: xs).getD i .null) :: sampleWR pick k ((x :: xs).eraseIdx i)

/-- `JsonHandler.parse_records` on the decoded payload (`json.loads` is
abstracted): a single object is the whole one-record sample; an empty array
yields an empty sample before any randomness; a nonempty array is sampled
without replacement up to the computed target; any other payload raises
`ValueError("Unsupported JSON structure")`. -/
def jsonParseRecords (pick : Nat → Nat)
    (samplePercent minSize maxSize fallbackSize : Nat) (data : Val) :
    Except String (List Val) :=
  match data with
  | .obj kvs => .ok [.obj kvs]
  | .arr xs =>
    if xs.isEmpty then .ok []
    else
      let target := computeSampleTarget xs.length samplePercent minSize maxSize fallbackSize
      .ok (sampleWR pick (min target xs.length) xs)
  | _ => .error "Unsupported JSON structure"

/-! ### Profiler (`_collect_stats`, `_flatten_record`) -/

mutual

/-- `_flatten_record`'s traversal before dict merging: a non-dict at the top
level is keyed `"value"`; nested dicts recurse with dot-joined prefixes;
any other value (including lists) is a leaf under its dotted key. -/
def rawFlatten (pfx : String) (v : Val) : List (String × Val) :=
  match v with
  | .obj kvs => rawFlattenKVs pfx kvs
  | x => [((if pfx = "" then "value" else pfx), x)]

/-- `rawFlatten` over the entries of a mapping. -/
def rawFlattenKVs (pfx : String) : List (String × Val) → List (String × Val)
  | [] => []
  | (k, v) :: rest =>
    let np := if pfx = "" then k else pfx ++ "." ++ k
    (match v with
     | .obj kvs2 => rawFlattenKVs np kvs2
     | x => [(np, x)]) ++ rawFlattenKVs pfx rest

end

/-- Python dict insert/update: an existing key keeps its position and takes
the new value, a new key is appended. -/
def dictUpsert (acc : List (String × Val)) (k : String) (v : Val) : List (String × Val) :=
  if acc.any (fun kv => kv.1 == k) then
    acc.map (fun kv => if kv.1 == k then (kv.1, v) else kv)
  else acc ++ [(k, v)]

/-- `RuleBuilderProcessor._flatten_record` with Python dict-update
semantics on duplicate dotted keys. -/
def flattenRecord (record : Val) : List (String × Val) :=
  (rawFlatten "" record).foldl (fun acc kv => dictUpsert acc kv.1 kv.2) []

/-- The reserved envelope metadata keys of the encapsulator. -/
def encapsulatorMetaFields : List String :=
  ["timestamp", "sourceType", "sourceID", "infoType", "dataType", "dataItemID",
   "metricTypeID", "metricValue"]

/-- `RuleBuilderProcessor._is_encapsulator_meta_field`: the root segment is
a reserved metadata name and the path is not under `metricValue.`. -/
def isEncapsulatorMetaField (field : String) : Bool :=
  encapsulatorMetaFields.contains ((field.splitOn ".").headD "") &&
    !field.startsWith "metricValue."

/-- `float(value)` applied to a value already inferred numeric in
`_collect_stats` (only int/float/numeric-string reach it; the fallback 0 is
unreachable there). -/
def pyFloatVal (v : Val) : Rat :=
  match v with
  | .bool b => if b then 1 else 0
  | .int n => (n : Rat)
  | .float q => q
  | .str s => (pyParseFloat s).getD 0
  | _ => 0

/-- The per-value update of `_collect_stats` after missing detection:
count, type histogram, numeric min/max or bounded category set, and bounded
regex samples. -/
def observeNonMissing (cfg : Config) (s : FieldStats) (v : Val) : FieldStats :=
  let s := { s with count := s.count + 1 }
  let inferred := inferType v
  let s := { s with type_counts := counterAdd s.type_counts inferred }
  let s :=
    if inferred = "int" ∨ inferred = "float" then
      let numVal := pyFloatVal v
      { s with numeric_count := s.numeric_count + 1,
               numeric_min := some (match s.numeric_min with
                 | none => numVal
                 | some m => min m numVal),
               numeric_max := some (match s.numeric_max with
                 | none => numVal
                 | some m => max m numVal) }
    else
      if s.categories.length < cfg.max_categories then
        { s with categories :=
            if s.categories.any (fun c => pyEq c v) then s.categories
            else s.categories ++ [v] }
      else s
  if cfg.regex_derivation && s.samples.length < cfg.max_categories then
    { s with samples := s.samples ++ [v] }
  else s

/-- The full per-value update of `_collect_stats`: `None` and
whitespace-only strings count as missing; other strings are stripped before
being observed. -/
def observeValue (cfg : Config) (s : FieldStats) (v : Val) : FieldStats :=
  match v with
  | .null => { s with missing := s.missing + 1 }
  | .str raw =>
    let stripped := pyStrip raw
    if stripped = "" then { s with missing := s.missing + 1 }
    else observeNonMissing cfg s (.str stripped)
  | x => observeNonMissing cfg s x

/-- `defaultdict` access followed by the per-value update, preserving
first-touch insertion order of fields. -/
def updateFieldStats (cfg : Config) (stats : List (String × FieldStats)) (field : String)
    (v : Val) : List (String × FieldStats) :=
  if stats.any (fun fs => fs.1 == field) then
    stats.map (fun fs => if fs.1 == field then (fs.1, observeValue cfg fs.2 v) else fs)
  else stats ++ [(field, observeValue cfg emptyFieldStats v)]

/-- The record loop body of `_collect_stats`: detect an encapsulated record
(`metricValue` present at top level), flatten, and fold every non-envelope
field/value pair into the stats. -/
def collectRecord (cfg : Config) (stats : List (String × FieldStats)) (record : Val) :
    List (String × FieldStats) :=
  let hasEncapsulator :=
    match record with
    | .obj kvs => kvs.any (fun kv => kv.1 == "metricValue")
    | _ => false
  (flattenRecord record).foldl (fun st kv =>
      if hasEncapsulator && isEncapsulatorMetaField kv.1 then st
      else updateFieldStats cfg st kv.1 kv.2)
    stats

/-- `RuleBuilderProcessor._collect_stats`. -/
def collectStats (cfg : Config) (records : List Val) : List (String × FieldStats) :=
  records.foldl (collectRecord cfg) []

/-! ### Observers on serialised rules, and concrete scenario inputs -/

/-- The key list of a serialised rule object. -/
def ruleKeys (r : Val) : List String :=
  match r with
  | .obj kvs => kvs.map Prod.fst
  | _ => []

/-- The value of the `"name"` key of a serialised rule object (empty string
when absent or not a string). -/
def ruleName (r : Val) : String :=
  match r with
  | .obj kvs =>
    match assocFind "name" kvs with
    | some (.str s) => s
    | _ => ""
  | _ => ""

/-- Scenario A field statistics: `status` observed in 1,000 sampled records,
6 distinct string values, none missing. -/
def statusStats : FieldStats :=
  { count := 1000, missing := 0, type_counts := [("string", 1000)],
    categories := [.str "pending", .str "approved", .str "rejected", .str "closed",
                   .str "draft", .str "archived"],
    numeric_min := none, numeric_max := none, numeric_count := 0, samples := [] }

/-- A minimal field statistic: one string observation. -/
def statsOneString : FieldStats :=
  { count := 1, missing := 0, type_counts := [("string", 1)], categories := [.str "x"],
    numeric_min := none, numeric_max := none, numeric_count := 0, samples := [] }

/-- A categorically-qualified field (5 distinct values against threshold 5)
with no retained samples. -/
def statsFiveCats : FieldStats :=
  { count := 10, missing := 0, type_counts := [("string", 10)],
    categories := [.str "a", .str "b", .str "c", .str "d", .str "e"],
    numeric_min := none, numeric_max := none, numeric_count := 0, samples := [] }

/-- A categorically-qualified field whose retained samples mix one ISO-date
string with one non-ISO string. -/
def statsmixedSamples : FieldStats :=
  { count := 10, missing := 0, type_counts := [("string", 10)],
    categories := [.str "a", .str "b", .str "c", .str "d", .str "e"],
    numeric_min := none, numeric_max := none, numeric_count := 0,
    samples := [.str "2024-01-15", .str "x"] }

/-! ### Theorems -/

/-- A total-valued `filterMap` is a `map`. -/
theorem filterMap_total (f : Val → Option Bool) (h : ∀ v, (f v).isSome)
    (l : List Val) : l.filterMap f = l.map (fun v => (f v).getD false) := by
  induction l with
  | nil => rfl
  | cons v rest ih =>
    have hv := h v
    cases hfv : f v with
    | none => rw [hfv] at hv; simp at hv
    | some b => simp [List.filterMap_cons, hfv, ih]

/-- The empty string is a substring of every string. -/
theorem strContains_empty_needle (s : String) : strContains s "" = true := by
  simp only [strContains, List.any_eq_true]
  refine ⟨0, by simp, ?_⟩
  show List.isPrefixOf [] (List.drop 0 s.data) = true
  rw [List.drop_zero]
  cases s.data <;> rfl

/-- C8: on an empty input — a CSV stream with no data rows or an empty JSON
array — the sampler returns an empty sample (with no error for the JSON
path), the profiler produces an empty field-statistics mapping, and the
synthesizer emits an empty rule-set `{rules: []}`. -/
theorem rb_C8_empty_input (rand pick : Nat → Nat) (pct mn mx fb : Nat) (cfg : Config)
    (th : Thresholds) :
    csvSample rand pct mn mx fb [] = [] ∧
    jsonParseRecords pick pct mn mx fb (Val.arr []) = Except.ok [] ∧
    collectStats cfg [] = [] ∧
    buildRulesList cfg [] th = [] ∧
    buildRules cfg [] th = Val.obj [("rules", Val.arr [])] :=
  ⟨rfl, rfl, rfl, rfl, rfl⟩

/-- C9: for a datatype rule with type INTEGER or FLOAT, with or without
`coerce_numeric_strings`, a resolved native boolean passes the per-value
check (Python's `bool` is a subclass of `int`), and the check list of the
rule is the pointwise application of that per-value check to the resolved
values. -/
theorem dqa_C9_datatype_bool_passes (sample : Val) (path dataType : String)
    (coerce : Bool) (h : dataType = "INTEGER" ∨ dataType = "FLOAT") :
    (∀ b : Bool, datatypeValueCheck dataType coerce (Val.bool b) = some true) ∧
    (checkDatatype sample path dataType coerce).checks =
      (getValues sample path).map
        (fun v => (datatypeValueCheck dataType coerce v).getD false) := by
  have htot : ∀ v, (datatypeValueCheck dataType coerce v).isSome := by
    intro v
    rcases h with h | h <;> subst h <;> simp [datatypeValueCheck]
  constructor
  · intro b
    rcases h with h | h <;> subst h <;> simp [datatypeValueCheck]
  · simpa [checkDatatype] using filterMap_total _ htot (getValues sample path)

/-- Witness for C9 at a concrete record holding a native boolean. -/
theorem dqa_C9_datatype_bool_passes_w :
    datatypeValueCheck "INTEGER" false (Val.bool true) = some true ∧
    (checkDatatype (Val.obj [("a", Val.bool true)]) "a" "INTEGER" false).checks =
      (getValues (Val.obj [("a", Val.bool true)]) "a").map
        (fun v => (datatypeValueCheck "INTEGER" false v).getD false) :=
  ⟨(dqa_C9_datatype_bool_passes (Val.obj [("a", Val.bool true)]) "a" "INTEGER" false
      (Or.inl rfl)).1 true,
   (dqa_C9_datatype_bool_passes (Val.obj [("a", Val.bool true)]) "a" "INTEGER" false
      (Or.inl rfl)).2⟩

/-- C10: for an `exists` rule whose feature path contains no dot the split
takes the whole path as container and the empty string as key; with
`exists=true` a top-level numeric value yields a failing check (the Python
`in` raises `TypeError`, caught as `False`) while any string value yields a
passing check (the empty string is a substring of every string). -/
theorem dqa_C10_exists_dotless (path : String) (sample : Val)
    (h : path.data.contains '.' = false) :
    splitOnLastDot path = (path, "") ∧
    (∀ n : Int, getValues sample path = [Val.int n] →
      (existsCheck sample path true).checks = [false] ∧
      (existsCheck sample path true).result = false) ∧
    (∀ q : Rat, getValues sample path = [Val.float q] →
      (existsCheck sample path true).checks = [false] ∧
      (existsCheck sample path true).result = false) ∧
    (∀ st : String, getValues sample path = [Val.str st] →
      (existsCheck sample path true).checks = [true] ∧
      (existsCheck sample path true).result = true) := by
  have hsp : splitOnLastDot path = (path, "") := by
    rw [splitOnLastDot, if_neg]
    simpa using h
  refine ⟨hsp, ?_, ?_, ?_⟩
  · intro n hv
    constructor <;> simp [existsCheck, hsp, hv, pyIn]
  · intro q hv
    constructor <;> simp [existsCheck, hsp, hv, pyIn]
  · intro st hv
    constructor <;> simp [existsCheck, hsp, hv, pyIn, strContains_empty_needle]

/-- Witness for C10 at `{"a": 5}` (failing) and `{"a": "x"}` (passing). -/
theorem dqa_C10_exists_dotless_w :
    (existsCheck (Val.obj [("a", Val.int 5)]) "a" true).result = false ∧
    (existsCheck (Val.obj [("a", Val.str "x")]) "a" true).result = true :=
  ⟨((dqa_C10_exists_dotless "a" (Val.obj [("a", Val.int 5)]) (by decide)).2.1 5 rfl).2,
   ((dqa_C10_exists_dotless "a" (Val.obj [("a", Val.str "x")]) (by decide)).2.2.2 "x" rfl).2⟩

/-- C1 (amended): when a rule's feature path resolves to nothing, the Path
Resolver yields the one-element sequence `[null]` — the Python `None`, not a
marker distinct from a present null — and the `datatype` (for each of the
four type labels) and `domain` checks produce a single failing check, so
their `CheckResult.result` is false; an `exists=true` rule whose container
path resolves to nothing likewise fails.  (The original claim extended this
to `strlen`, `categorical` and `regex`, which instead apply their ordinary
check to the null marker and can pass — see the counterexample.) -/
theorem dqa_C1_absent_resolution (sample : Val) (path : String) (hstar : path ≠ "*")
    (hmiss : jmesSearch sample (splitPath path) = none) :
    getValues sample path = [Val.null] ∧
    (∀ dataType coerce,
      dataType = "STRING" ∨ dataType = "INTEGER" ∨ dataType = "FLOAT" ∨
        dataType = "BOOLEAN" →
      (checkDatatype sample path dataType coerce).checks = [false] ∧
      (checkDatatype sample path dataType coerce).result = false) ∧
    (∀ minv maxv coerce,
      (checkDomain sample path minv maxv coerce).map CheckResult.checks = some [false] ∧
      (checkDomain sample path minv maxv coerce).map CheckResult.result = some false) ∧
    (∀ featPath, (splitOnLastDot featPath).1 = path →
      (existsCheck sample featPath true).checks = [false] ∧
      (existsCheck sample featPath true).result = false) := by
  have hget : getValues sample path = [Val.null] := by
    simp [getValues, hstar, hmiss]
  refine ⟨hget, ?_, ?_, ?_⟩
  · intro dataType coerce hdt
    rcases hdt with h | h | h | h <;> subst h <;>
      constructor <;> simp [checkDatatype, hget, datatypeValueCheck]
  · intro minv maxv coerce
    constructor <;>
      simp [checkDomain, hget, domainChecks, domainValueStep]
  · intro featPath hfp
    constructor <;> simp [existsCheck, hfp, hget, pyIn]

/-- Witness for C1 (amended) at the empty record and path `"a"`. -/
theorem dqa_C1_absent_resolution_w :
    getValues (Val.obj []) "a" = [Val.null] ∧
    (checkDatatype (Val.obj []) "a" "STRING" false).result = false ∧
    (checkDomain (Val.obj []) "a" (some (Val.int 0)) (some (Val.int 9)) false).map
      CheckResult.result = some false ∧
    (existsCheck (Val.obj []) "a" true).result = false := by
  have h := dqa_C1_absent_resolution (Val.obj []) "a" (by decide) rfl
  exact ⟨h.1, (h.2.1 "STRING" false (Or.inl rfl)).2,
         (h.2.2.1 (some (Val.int 0)) (some (Val.int 9)) false).2,
         (h.2.2.2 "a" rfl).2⟩

/-- Counterexample to C1 as stated: on the empty record the path `"a"`
resolves to nothing, yet a `strlen` rule with `lenType=EXACT, len=4`
produces check `true` (Python stringifies the `None` marker to `"None"`,
whose length is 4), so the rule's result is `true`, not `false`. -/
theorem dqa_C1_counterexample :
    jmesSearch (Val.obj []) (splitPath "a") = none ∧
    (checkStrlen (Val.obj []) "a" "EXACT" 4).checks = [true] ∧
    (checkStrlen (Val.obj []) "a" "EXACT" 4).result = true :=
  ⟨rfl, rfl, rfl⟩

/-- C4 (amended): every produced CheckResult's `type` equals the rule's
kind for the kinds `domain`, `strlen`, `datatype`, `categorical` and
`regex`; an `exists` rule instead produces a CheckResult whose `type` is the
literal string `"missing"`. -/
theorem dqa_C4_result_type (rmatch : String → String → Bool) (sample : Val) (r : Rule)
    (cr : CheckResult) (h : evalRule rmatch sample r = some cr) :
    cr.type = if r.name = "exists" then "missing" else r.name := by
  unfold evalRule at h
  split_ifs at h with h1 h2 h3 h4 h5 h6
  · rw [h1]
    cases hs : r.specs <;> rw [hs] at h <;> try exact Option.noConfusion h
    rename_i mn mx c
    obtain ⟨checks, -, hcr⟩ :=
      Option.map_eq_some'.mp (show checkDomain sample r.feature mn mx c = some cr from h)
    rw [← hcr]
    simp
  · rw [h2]
    cases hs : r.specs <;> rw [hs] at h <;> try exact Option.noConfusion h
    injection h with h'
    rw [← h']
    simp [checkStrlen]
  · rw [h3]
    cases hs : r.specs <;> rw [hs] at h <;> try exact Option.noConfusion h
    injection h with h'
    rw [← h']
    simp [checkDatatype]
  · rw [h4]
    cases hs : r.specs <;> rw [hs] at h <;> try exact Option.noConfusion h
    injection h with h'
    rw [← h']
    simp [checkCategorical]
  · rw [h5]
    cases hs : r.specs <;> rw [hs] at h <;> try exact Option.noConfusion h
    injection h with h'
    rw [← h']
    simp [existsCheck]
  · rw [h6]
    cases hs : r.specs <;> rw [hs] at h <;> try exact Option.noConfusion h
    injection h with h'
    rw [← h']
    simp [checkRegex]

/-- Witness for C4 (amended): a concrete `strlen` rule produces a
CheckResult typed `"strlen"`. -/
theorem dqa_C4_result_type_w :
    (checkStrlen (Val.obj []) "f" "EXACT" 0).type =
      (if ("strlen" : String) = "exists" then "missing" else "strlen") :=
  dqa_C4_result_type (fun _ _ => false) (Val.obj [])
    { name := "strlen", feature := "f", specs := .strlen "EXACT" 0 } _ rfl

/-- Counterexample to C4 as stated: an `exists` rule produces a CheckResult
whose `type` is `"missing"`, not `"exists"`. -/
theorem dqa_C4_counterexample :
    (evalRule (fun _ _ => false) (Val.obj [("a", Val.str "x")])
        { name := "exists", feature := "a", specs := .existsSpec true }).map
      CheckResult.type = some "missing" ∧ ("missing" : String) ≠ "exists" :=
  ⟨rfl, by decide⟩

/-- C2 (amended): for the field `status` observed in 1,000 sampled records
with 6 distinct string values, none missing, and `max_categories = 20`, the
synthesizer emits exactly an `exists` rule with `exists=true` and a
`datatype` rule with type STRING; no categorical rule is emitted, because
the derived `min_categorical_unique = clamp(ceil(1000*0.2), 5, 100) = 100`
exceeds the 6 observed categories. -/
theorem rb_C2_scenario_a :
    buildRulesList cfgDefault [("status", statusStats)] (deriveThresholds 1000) =
      [Val.obj [("name", .str "exists"), ("feature", .str "status"),
                ("specs", .obj [("exists", .bool true)])],
       Val.obj [("name", .str "datatype"), ("feature", .str "status"),
                ("specs", .obj [("type", .str "STRING")])]] := rfl

/-- Counterexample to C2 as stated: in that scenario the derived
`min_categorical_unique` is 100, and no rule of the synthesized rule-set is
a categorical rule (so no categorical rule with those 6 values exists). -/
theorem rb_C2_counterexample :
    (deriveThresholds 1000).min_categorical_unique = 100 ∧
    (buildRulesList cfgDefault [("status", statusStats)] (deriveThresholds 1000)).all
      (fun r => !(ruleName r == "categorical")) = true :=
  ⟨rfl, rfl⟩

/-- Every rule of the `domain` segment has the key list
`name`/`feature`/`specs`. -/
theorem domainRules_keys (cfg : Config) (th : Thresholds) (field dqaType : String)
    (s : FieldStats) :
    ∀ r ∈ domainRules cfg th field dqaType s, ruleKeys r = ["name", "feature", "specs"] := by
  intro r hr
  unfold domainRules at hr
  rcases hmn : s.numeric_min with _ | mn <;> rw [hmn] at hr
  · simp at hr
  rcases hmx : s.numeric_max with _ | mx <;> rw [hmx] at hr
  · simp at hr
  simp at hr
  obtain ⟨-, hr⟩ := hr
  subst hr
  rfl

/-- Every rule of the `categorical` segment has the key list
`name`/`feature`/`specs`. -/
theorem categoricalRules_keys (cfg : Config) (th : Thresholds) (field : String)
    (s : FieldStats) :
    ∀ r ∈ categoricalRules cfg th field s, ruleKeys r = ["name", "feature", "specs"] := by
  intro r hr
  unfold categoricalRules at hr
  split at hr
  · simp at hr
    subst hr
    rfl
  · simp at hr

/-- Every rule of the `regex` segment has the key list
`name`/`feature`/`specs`. -/
theorem regexRules_keys (cfg : Config) (th : Thresholds) (field : String)
    (s : FieldStats) :
    ∀ r ∈ regexRules cfg th field s, ruleKeys r = ["name", "feature", "specs"] := by
  intro r hr
  unfold regexRules at hr
  split at hr
  · rcases hd : deriveRegex s.samples with _ | p <;> rw [hd] at hr
    · simp at hr
    · simp at hr
      subst hr
      rfl
  · simp at hr

/-- C3 (amended): every rule object of a synthesized rule-set serialises
with exactly the literal key names `name`, `feature` and `specs` (the rule
kind is stored under the key `name`, not `kind`). -/
theorem rb_C3_rule_keys (cfg : Config) (stats : List (String × FieldStats))
    (th : Thresholds) (r : Val) (hr : r ∈ buildRulesList cfg stats th) :
    ruleKeys r = ["name", "feature", "specs"] := by
  rw [buildRulesList, List.mem_flatMap] at hr
  obtain ⟨fs, -, hr⟩ := hr
  rw [fieldRules] at hr
  by_cases h0 : (fs.2.count + fs.2.missing == 0) = true
  · rw [if_pos h0] at hr
    simp at hr
  · rw [if_neg h0] at hr
    rcases List.mem_append.mp hr with hr | hr
    · rcases List.mem_append.mp hr with hr | hr
      · rcases List.mem_append.mp hr with hr | hr
        · simp at hr
          rcases hr with hr | hr <;> (subst hr; rfl)
        · exact domainRules_keys _ _ _ _ _ r hr
      · exact categoricalRules_keys _ _ _ _ r hr
    · exact regexRules_keys _ _ _ _ r hr

/-- Witness for C3 (amended) at a one-field synthesis. -/
theorem rb_C3_rule_keys_w :
    ruleKeys (existsRuleVal "f" statsOneString) = ["name", "feature", "specs"] :=
  rb_C3_rule_keys cfgDefault [("f", statsOneString)] (deriveThresholds 1) _ (by
    have h : buildRulesList cfgDefault [("f", statsOneString)] (deriveThresholds 1) =
        [existsRuleVal "f" statsOneString, datatypeRuleVal cfgDefault "f" "STRING"] := rfl
    rw [h]
    exact List.mem_cons_self _ _)

/-- Counterexample to C3 as stated: a synthesized rule-set is nonempty and
none of its rule objects carries a `kind` key (the kind is under `name`). -/
theorem rb_C3_counterexample :
    (buildRulesList cfgDefault [("f", statsOneString)] (deriveThresholds 1)).length = 2 ∧
    (buildRulesList cfgDefault [("f", statsOneString)] (deriveThresholds 1)).all
      (fun r => !(ruleKeys r).contains "kind" &&
        (ruleKeys r == ["name", "feature", "specs"])) = true :=
  ⟨rfl, rfl⟩

/-- Every rule of the `domain` segment is named `domain`. -/
theorem domainRules_names (cfg : Config) (th : Thresholds) (field dqaType : String)
    (s : FieldStats) :
    ∀ r ∈ domainRules cfg th field dqaType s, ruleName r = "domain" := by
  intro r hr
  unfold domainRules at hr
  rcases hmn : s.numeric_min with _ | mn <;> rw [hmn] at hr
  · simp at hr
  rcases hmx : s.numeric_max with _ | mx <;> rw [hmx] at hr
  · simp at hr
  simp at hr
  obtain ⟨-, hr⟩ := hr
  subst hr
  rfl

/-- Every rule of the `regex` segment is named `regex`. -/
theorem regexRules_names (cfg : Config) (th : Thresholds) (field : String)
    (s : FieldStats) :
    ∀ r ∈ regexRules cfg th field s, ruleName r = "regex" := by
  intro r hr
  unfold regexRules at hr
  split at hr
  · rcases hd : deriveRegex s.samples with _ | p <;> rw [hd] at hr
    · simp at hr
    · simp at hr
      subst hr
      rfl
  · simp at hr

/-- C5 (amended): for a field whose category set would otherwise qualify
(nonempty, within `max_categories`, at least `min_categorical_unique`), the
synthesizer emits the categorical rule exactly when the field does NOT look
like a timestamp, where looking like a timestamp means: the name contains
"time" or "date" (case-insensitive), OR SOME stringified sampled value
matches the ISO `YYYY-MM-DD`-prefixed shape (the source uses `any`, not
`every`). -/
theorem rb_C5_cat_suppression (cfg : Config) (th : Thresholds) (field : String)
    (s : FieldStats) (h0 : s.count + s.missing ≠ 0) (h1 : s.categories ≠ [])
    (h2 : s.categories.length ≤ cfg.max_categories)
    (h3 : th.min_categorical_unique ≤ s.categories.length) :
    (∃ r ∈ fieldRules cfg th field s, ruleName r = "categorical") ↔
      looksDatetimeField field s.samples = false := by
  have hif : fieldRules cfg th field s =
      [existsRuleVal field s, datatypeRuleVal cfg field (chooseType s.type_counts)] ++
        domainRules cfg th field (chooseType s.type_counts) s ++
        categoricalRules cfg th field s ++ regexRules cfg th field s := by
    rw [fieldRules, if_neg]
    simpa using h0
  have hc1 : s.categories.isEmpty = false := by
    simpa [List.isEmpty_iff] using h1
  have hcat : categoricalRules cfg th field s =
      if looksDatetimeField field s.samples = false then
        [Val.obj [("name", .str "categorical"), ("feature", .str field),
                  ("specs", .obj [("values", .arr s.categories)])]]
      else [] := by
    rw [categoricalRules, hc1, decide_eq_true h2, decide_eq_true h3]
    by_cases hld : looksDatetimeField field s.samples = false
    · rw [hld]
      simp
    · rw [if_neg hld]
      rw [Bool.not_eq_false] at hld
      rw [hld]
      simp
  rw [hif]
  constructor
  · rintro ⟨r, hr, hname⟩
    rcases List.mem_append.mp hr with hr | hr
    · rcases List.mem_append.mp hr with hr | hr
      · rcases List.mem_append.mp hr with hr | hr
        · simp at hr
          rcases hr with hr | hr <;> subst hr
          · have he : ruleName (existsRuleVal field s) = "exists" := rfl
            rw [he] at hname
            exact absurd hname (by decide)
          · have hd : ruleName
                (datatypeRuleVal cfg field (chooseType s.type_counts)) = "datatype" := rfl
            rw [hd] at hname
            exact absurd hname (by decide)
        · have := domainRules_names cfg th field (chooseType s.type_counts) s r hr
          rw [this] at hname
          exact absurd hname (by decide)
      · rw [hcat] at hr
        by_cases hld : looksDatetimeField field s.samples = false
        · exact hld
        · rw [if_neg hld] at hr
          simp at hr
    · have := regexRules_names cfg th field s r hr
      rw [this] at hname
      exact absurd hname (by decide)
  · intro hld
    refine ⟨Val.obj [("name", .str "categorical"), ("feature", .str field),
                     ("specs", .obj [("values", .arr s.categories)])], ?_, rfl⟩
    refine List.mem_append.mpr (Or.inl (List.mem_append.mpr (Or.inr ?_)))
    rw [hcat, if_pos hld]
    exact List.mem_singleton.mpr rfl

/-- Witness for C5 (amended) at a qualified field with no retained samples:
the categorical rule is emitted. -/
theorem rb_C5_cat_suppression_w :
    (∃ r ∈ fieldRules cfgDefault (deriveThresholds 10) "status" statsFiveCats,
      ruleName r = "categorical") ↔
      looksDatetimeField "status" statsFiveCats.samples = false :=
  rb_C5_cat_suppression cfgDefault (deriveThresholds 10) "status" statsFiveCats
    (by decide) (by exact List.cons_ne_nil _ _) (by decide) (by decide)

/-- Counterexample to C5 as stated: a qualified field `status` whose
samples are one ISO date and one non-ISO string is suppressed by the code
(`any` sample looks ISO), although the claim's predicate — name hint OR
EVERY sampled value ISO-shaped — is false, so the claim says the
categorical rule should have been emitted. -/
theorem rb_C5_counterexample :
    (fieldRules cfgDefault (deriveThresholds 10) "status" statsmixedSamples).all
      (fun r => !(ruleName r == "categorical")) = true ∧
    (strContains (pyLowerStr "status") "time" || strContains (pyLowerStr "status") "date" ||
      statsmixedSamples.samples.all (fun v => looksIsoDate (pyStr v))) = false ∧
    statsmixedSamples.categories.length = 5 ∧
    (deriveThresholds 10).min_categorical_unique = 5 ∧
    statsmixedSamples.categories.length ≤ cfgDefault.max_categories :=
  ⟨rfl, rfl, rfl, rfl, by decide⟩

/-- A character whose ASCII lower-casing is `c` is either `c` itself or an
upper-case ASCII letter. -/
theorem pyLower_cases (a c : Char) (h : pyLower a = c) :
    a = c ∨ (65 ≤ a.toNat ∧ a.toNat ≤ 90) := by
  by_cases hAZ : 65 ≤ a.toNat ∧ a.toNat ≤ 90
  · exact Or.inr hAZ
  · rw [pyLower, if_neg hAZ] at h
    exact Or.inl h

/-- An upper-case ASCII letter is not a digit, not whitespace, and not a
sign character. -/
theorem upperAsciiFacts (a : Char) (hAZ : 65 ≤ a.toNat ∧ a.toNat ≤ 90) :
    pyIsDigit a = false ∧ pySpace a = false ∧ (a == '+') = false ∧ (a == '-') = false := by
  obtain ⟨hlo, hhi⟩ := hAZ
  refine ⟨?_, ?_, ?_, ?_⟩
  · simp only [pyIsDigit, Bool.and_eq_false_iff, decide_eq_false_iff_not]
    omega
  · simp only [pySpace, Bool.or_eq_false_iff, beq_eq_false_iff_ne, ne_eq]
    omega
  · rw [beq_eq_false_iff_ne]
    intro heq
    rw [heq] at hlo
    exact absurd hlo (by decide)
  · rw [beq_eq_false_iff_ne]
    intro heq
    rw [heq] at hlo
    exact absurd hlo (by decide)

/-- A character lower-casing to `'t'` or `'f'` is not a digit, not
whitespace, and not a sign character. -/
theorem headLetterFacts (a : Char) (h : pyLower a = 't' ∨ pyLower a = 'f') :
    pyIsDigit a = false ∧ pySpace a = false ∧ (a == '+') = false ∧ (a == '-') = false := by
  rcases h with h | h
  · rcases pyLower_cases _ _ h with rfl | hAZ
    · decide
    · exact upperAsciiFacts a hAZ
  · rcases pyLower_cases _ _ h with rfl | hAZ
    · decide
    · exact upperAsciiFacts a hAZ

/-- A string that lower-cases to `"true"` or `"false"` never parses as a
Python integer (its first character is a letter). -/
theorem boolWordNoParse (s : String) (h : pyLowerStr s = "true" ∨ pyLowerStr s = "false") :
    pyParseInt s = none := by
  have hmap : s.data.map pyLower = "true".data ∨ s.data.map pyLower = "false".data := by
    rcases h with h | h
    · exact Or.inl (congrArg String.data h)
    · exact Or.inr (congrArg String.data h)
  obtain ⟨a, rest, hsd, hla⟩ :
      ∃ a rest, s.data = a :: rest ∧ (pyLower a = 't' ∨ pyLower a = 'f') := by
    rcases hmap with h | h
    · cases hsd : s.data with
      | nil => rw [hsd] at h; exact absurd h (by decide)
      | cons a rest =>
        refine ⟨a, rest, rfl, Or.inl ?_⟩
        rw [hsd] at h
        have h2 : pyLower a :: rest.map pyLower = 't' :: ['r', 'u', 'e'] := h
        exact ((List.cons.injEq _ _ _ _).mp h2).1
    · cases hsd : s.data with
      | nil => rw [hsd] at h; exact absurd h (by decide)
      | cons a rest =>
        refine ⟨a, rest, rfl, Or.inr ?_⟩
        rw [hsd] at h
        have h2 : pyLower a :: rest.map pyLower = 'f' :: ['a', 'l', 's', 'e'] := h
        exact ((List.cons.injEq _ _ _ _).mp h2).1
  obtain ⟨hdig, hsp, hplus, hminus⟩ := headLetterFacts a hla
  rw [pyParseInt, hsd]
  simp [pyParseIntList, List.dropWhile_cons, hsp, hplus, hminus, List.takeWhile_cons, hdig]

/-- C6: the type inferrer follows the fixed precedence chain — native
boolean, native integer, native float, case-insensitive "true"/"false"
string, integer-parseable string, float-parseable string, otherwise string —
and consequently every string that parses as an integer is inferred as
integer, never float (conjunct 5 carries no side condition: a
"true"/"false" word never parses as an integer). -/
theorem rb_C6_infer_chain :
    (∀ b, inferType (Val.bool b) = "bool") ∧
    (∀ n : Int, inferType (Val.int n) = "int") ∧
    (∀ q : Rat, inferType (Val.float q) = "float") ∧
    (∀ s : String, pyLowerStr s = "true" ∨ pyLowerStr s = "false" →
      inferType (Val.str s) = "bool") ∧
    (∀ s : String, (pyParseInt s).isSome → inferType (Val.str s) = "int") ∧
    (∀ s : String, ¬(pyLowerStr s = "true" ∨ pyLowerStr s = "false") →
      pyParseInt s = none → (pyParseFloat s).isSome → inferType (Val.str s) = "float") ∧
    (∀ s : String, ¬(pyLowerStr s = "true" ∨ pyLowerStr s = "false") →
      pyParseInt s = none → pyParseFloat s = none → inferType (Val.str s) = "string") := by
  refine ⟨fun b => rfl, fun n => rfl, fun q => rfl, ?_, ?_, ?_, ?_⟩
  · intro s hs
    simp only [inferType]
    rw [if_pos hs]
  · intro s hs
    have hnb : ¬(pyLowerStr s = "true" ∨ pyLowerStr s = "false") := by
      intro h
      rw [boolWordNoParse s h] at hs
      simp at hs
    simp only [inferType]
    rw [if_neg hnb, if_pos hs]
  · intro s h1 h2 h3
    simp only [inferType]
    rw [if_neg h1, if_neg (by simp [h2]), if_pos h3]
  · intro s h1 h2 h3
    simp only [inferType]
    rw [if_neg h1, if_neg (by simp [h2]), if_neg (by simp [h3])]

/-- Witness for C6 on the four chain outcomes for strings. -/
theorem rb_C6_infer_chain_w :
    inferType (Val.str "42") = "int" ∧ inferType (Val.str "TRUE") = "bool" ∧
    inferType (Val.str "1.5") = "float" ∧ inferType (Val.str "abc") = "string" :=
  ⟨rb_C6_infer_chain.2.2.2.2.1 "42" (by decide),
   rb_C6_infer_chain.2.2.2.1 "TRUE" (Or.inl (by decide)),
   rb_C6_infer_chain.2.2.2.2.2.1 "1.5" (by decide) (by decide) (by decide),
   rb_C6_infer_chain.2.2.2.2.2.2 "abc" (by decide) (by decide) (by decide)⟩

/-- The natural ceiling division `(a + (k-1)) / k` computes the rational
ceiling `⌈a / k⌉`. -/
theorem natCeilDivCast (a k : Nat) (hk : 0 < k) :
    (((a + (k - 1)) / k : Nat) : ℤ) = ⌈(a : ℚ) / (k : ℚ)⌉ := by
  have hkq : (0 : ℚ) < (k : ℚ) := by exact_mod_cast hk
  have h1 : ((a + (k - 1)) / k) * k ≤ a + (k - 1) := Nat.div_mul_le_self _ _
  have h2 : (a + (k - 1)) / k < ((a + (k - 1)) / k) + 1 := Nat.lt_succ_self _
  have h3 : a + (k - 1) < (((a + (k - 1)) / k) + 1) * k :=
    (Nat.div_lt_iff_lt_mul hk).mp h2
  set q := (a + (k - 1)) / k with hq
  set M := q * k with hM
  rw [Nat.succ_mul] at h3
  have hMa : a ≤ M := by omega
  have hMb : M < a + k := by omega
  symm
  rw [Int.ceil_eq_iff]
  constructor
  · rw [lt_div_iff₀ hkq]
    push_cast
    have hc : (q : ℚ) * (k : ℚ) < (a : ℚ) + (k : ℚ) := by
      exact_mod_cast (show q * k < a + k from hM ▸ hMb)
    linarith
  · rw [div_le_iff₀ hkq]
    push_cast
    have hc : (a : ℚ) ≤ (q : ℚ) * (k : ℚ) := by
      exact_mod_cast (show a ≤ q * k from hM ▸ hMa)
    linarith

/-- C7: each derived threshold equals
`clamp(ceil(sampled_count × fraction), floor, ceiling)` with fractions
0.20/0.20/0.40 and bounds 5–100/5–100/30–500; each is monotone
nondecreasing in the sampled count; and each always lies within its floor
and ceiling. -/
theorem rb_C7_thresholds (n m : Nat) (hnm : n ≤ m) :
    (((deriveThresholds n).min_categorical_unique : ℤ) =
        max 5 (min 100 ⌈(n : ℚ) * (20 / 100)⌉) ∧
      ((deriveThresholds n).min_regex_samples : ℤ) =
        max 5 (min 100 ⌈(n : ℚ) * (20 / 100)⌉) ∧
      ((deriveThresholds n).min_domain_samples : ℤ) =
        max 30 (min 500 ⌈(n : ℚ) * (40 / 100)⌉)) ∧
    ((deriveThresholds n).min_categorical_unique ≤
        (deriveThresholds m).min_categorical_unique ∧
      (deriveThresholds n).min_regex_samples ≤ (deriveThresholds m).min_regex_samples ∧
      (deriveThresholds n).min_domain_samples ≤ (deriveThresholds m).min_domain_samples) ∧
    (5 ≤ (deriveThresholds n).min_categorical_unique ∧
      (deriveThresholds n).min_categorical_unique ≤ 100 ∧
      5 ≤ (deriveThresholds n).min_regex_samples ∧
      (deriveThresholds n).min_regex_samples ≤ 100 ∧
      30 ≤ (deriveThresholds n).min_domain_samples ∧
      (deriveThresholds n).min_domain_samples ≤ 500) := by
  have hfifth : ∀ a : Nat, (((a + 4) / 5 : Nat) : ℤ) = ⌈(a : ℚ) / 5⌉ := by
    intro a
    have h := natCeilDivCast a 5 (by norm_num)
    norm_num at h
    convert h using 3
  have hc20 : ⌈(n : ℚ) * (20 / 100)⌉ = (((n + 4) / 5 : Nat) : ℤ) := by
    rw [show (n : ℚ) * (20 / 100) = (n : ℚ) / 5 by ring, ← hfifth n]
  have hc40 : ⌈(n : ℚ) * (40 / 100)⌉ = (((2 * n + 4) / 5 : Nat) : ℤ) := by
    rw [show (n : ℚ) * (40 / 100) = ((2 * n : Nat) : ℚ) / 5 by push_cast; ring,
      ← hfifth (2 * n)]
  refine ⟨⟨?_, ?_, ?_⟩, ⟨?_, ?_, ?_⟩, ?_, ?_, ?_, ?_, ?_, ?_⟩
  · rw [hc20]
    simp only [deriveThresholds, clampNat]
    push_cast
    rfl
  · rw [hc20]
    simp only [deriveThresholds, clampNat]
    push_cast
    rfl
  · rw [hc40]
    simp only [deriveThresholds, clampNat]
    push_cast
    rfl
  · simp only [deriveThresholds, clampNat]
    exact max_le_max (le_refl 5)
      (min_le_min (le_refl 100) (Nat.div_le_div_right (by omega)))
  · simp only [deriveThresholds, clampNat]
    exact max_le_max (le_refl 5)
      (min_le_min (le_refl 100) (Nat.div_le_div_right (by omega)))
  · simp only [deriveThresholds, clampNat]
    exact max_le_max (le_refl 30)
      (min_le_min (le_refl 500) (Nat.div_le_div_right (by omega)))
  · exact le_max_left _ _
  · simp only [deriveThresholds, clampNat]
    exact max_le (by norm_num) (min_le_left _ _)
  · exact le_max_left _ _
  · simp only [deriveThresholds, clampNat]
    exact max_le (by norm_num) (min_le_left _ _)
  · exact le_max_left _ _
  · simp only [deriveThresholds, clampNat]
    exact max_le (by norm_num) (min_le_left _ _)

/-- Witness for C7 at sampled counts 3 ≤ 7. -/
theorem rb_C7_thresholds_w :
    (((deriveThresholds 3).min_categorical_unique : ℤ) =
        max 5 (min 100 ⌈(3 : ℚ) * (20 / 100)⌉) ∧
      ((deriveThresholds 3).min_regex_samples : ℤ) =
        max 5 (min 100 ⌈(3 : ℚ) * (20 / 100)⌉) ∧
      ((deriveThresholds 3).min_domain_samples : ℤ) =
        max 30 (min 500 ⌈(3 : ℚ) * (40 / 100)⌉)) ∧
    ((deriveThresholds 3).min_categorical_unique ≤
        (deriveThresholds 7).min_categorical_unique ∧
      (deriveThresholds 3).min_regex_samples ≤ (deriveThresholds 7).min_regex_samples ∧
      (deriveThresholds 3).min_domain_samples ≤ (deriveThresholds 7).min_domain_samples) ∧
    (5 ≤ (deriveThresholds 3).min_categorical_unique ∧
      (deriveThresholds 3).min_categorical_unique ≤ 100 ∧
      5 ≤ (deriveThresholds 3).min_regex_samples ∧
      (deriveThresholds 3).min_regex_samples ≤ 100 ∧
      30 ≤ (deriveThresholds 3).min_domain_samples ∧
      (deriveThresholds 3).min_domain_samples ≤ 500) := by
  have h := rb_C7_thresholds 3 7 (by norm_num)
  exact_mod_cast h
